import Mathlib

/-!
A shallow embedding of `src/ecotracker.py` (EcoTracker, a command-line
carbon-footprint journal) and proofs of its specified properties.

Modelling conventions:
* Python floats are modelled as exact rationals (`ℚ`); all the program's
  numeric literals are short decimals, so the arithmetic of the spec is
  exact over `ℚ`.
* The storage file is modelled by its parse status (`FileState`):
  missing, unparsable, or holding a stored entry list.  `json.dump`
  followed by `json.load` round-trips lists of string/float records
  exactly (Python floats round-trip through `repr`), so a successful
  save is modelled as storing the entry list itself.
* Interactive flows are modelled as functions of an input script (the
  strings the user would type) and the file state, returning the new
  file state together with a result describing what was printed.
* `datetime.datetime.strptime(date, "%Y-%m-%d")` is modelled by
  `valid_date` (digit groups separated by dashes, real calendar check
  with leap years); `float(...)` is modelled by `py_float` (ordinary
  signed decimal literals with optional exponent); `str.strip()` is
  modelled by `py_strip`.
-/

namespace EcoTracker

/-- Emission factor: kg CO2 per mile driven (source line 10). -/
def CAR_CO2_PER_MILE : ℚ := 0.411

/-- Emission factor: kg CO2 per transit mile (source line 11). -/
def TRANSIT_CO2_PER_MILE : ℚ := 0.089

/-- Emission factor: kg CO2 per kWh of electricity (source line 12). -/
def ELEC_CO2_PER_KWH : ℚ := 0.42

/-- The `DIET_CO2` dict (source lines 15-19): diet code to
(label, kg CO2 per day); `none` models a `KeyError` / `not in`. -/
def DIET_CO2 (code : String) : Option (String × ℚ) :=
  if code = "1" then some ("Omnivore", 5.0)
  else if code = "2" then some ("Vegetarian", 3.5)
  else if code = "3" then some ("Vegan", 2.5)
  else none

/-- The emissions breakdown dict returned by `calc_emissions`. -/
structure Emissions where
  car : ℚ
  transit : ℚ
  elec : ℚ
  diet : ℚ
  total : ℚ
deriving DecidableEq

/-- One day's record: the raw inputs plus the snapshotted breakdown. -/
structure Entry where
  date : String
  car_miles : ℚ
  transit_miles : ℚ
  elec_kwh : ℚ
  diet : String
  emissions : Emissions
deriving DecidableEq

/-- `calc_emissions` (source lines 48-54).  `none` models the `KeyError`
raised when the diet code is not a key of `DIET_CO2`. -/
def calc_emissions (car_miles transit_miles elec_kwh : ℚ) (diet : String) :
    Option Emissions :=
  let car := car_miles * CAR_CO2_PER_MILE
  let transit := transit_miles * TRANSIT_CO2_PER_MILE
  let elec := elec_kwh * ELEC_CO2_PER_KWH
  match DIET_CO2 diet with
  | none => none
  | some p =>
      some { car := car, transit := transit, elec := elec, diet := p.2,
             total := car + transit + elec + p.2 }

/-- The storage file, by its parse status: absent, present but not
parseable as JSON, or holding a stored entry list. -/
inductive FileState
  | missing
  | corrupt
  | stored (entries : List Entry)
deriving DecidableEq

/-- The notice printed by `load_data` on a parse failure (source line 38). -/
def loadNotice : String := "Couldn’t load saved data — starting fresh."

/-- `load_data` (source lines 31-39): entries together with the printed
notices.  Total: every file state yields a result, no exception escapes. -/
def load_data : FileState → List Entry × List String
  | .missing => ([], [])
  | .corrupt => ([], [loadNotice])
  | .stored entries => (entries, [])

/-- `save_data` (source lines 41-46), successful-write case: the file now
holds exactly the serialized list.  The `except` branch (write failure)
leaves the file in an unspecified partial state and is not modelled. -/
def save_data (entries : List Entry) : FileState :=
  .stored entries

/-- Interprets a run of decimal digit characters as a natural number. -/
def natOfDigits (cs : List Char) : Nat :=
  cs.foldl (fun a c => a * 10 + (c.toNat - 48)) 0

/-- Splits the longest leading run of decimal digits off a character list. -/
def spanDigits : List Char → List Char × List Char
  | [] => ([], [])
  | c :: cs =>
      if c.isDigit then
        let (ds, r) := spanDigits cs
        (c :: ds, r)
      else ([], c :: cs)

/-- Consumes an optional leading sign; returns whether it was a minus. -/
def parseSignB : List Char → Bool × List Char
  | '+' :: cs => (false, cs)
  | '-' :: cs => (true, cs)
  | cs => (false, cs)

/-- Drops leading whitespace characters. -/
def dropLeadingWS : List Char → List Char
  | [] => []
  | c :: cs => if c.isWhitespace then dropLeadingWS cs else c :: cs

/-- Models Python `str.strip()`: removes leading and trailing whitespace. -/
def py_strip (s : String) : String :=
  String.mk (dropLeadingWS ((dropLeadingWS s.data.reverse).reverse))

/-- Helper for `py_float`: the optional exponent part after `e`/`E`. -/
def applyExp (mant : ℚ) (cs : List Char) : Option ℚ :=
  let (eneg, cs1) := parseSignB cs
  let (eds, cs2) := spanDigits cs1
  if eds.isEmpty || !cs2.isEmpty then none
  else
    some (if eneg then mant / (10 : ℚ) ^ natOfDigits eds
          else mant * (10 : ℚ) ^ natOfDigits eds)

/-- Models Python `float(s)` on ordinary decimal literals: optional sign,
digits with an optional fractional part (at least one digit overall),
optional `e`/`E` exponent.  `none` models the `ValueError` path.
(Exotic accepted forms — `inf`, `nan`, digit underscores — are outside
every behaviour the program's spec relies on and are not modelled.) -/
def py_float (s : String) : Option ℚ :=
  let (neg, cs0) := parseSignB s.data
  let (ip, cs1) := spanDigits cs0
  let (fp, cs2) :=
    match cs1 with
    | '.' :: rest => spanDigits rest
    | _ => ([], cs1)
  if ip.isEmpty && fp.isEmpty then none
  else
    let mant : ℚ :=
      (natOfDigits ip : ℚ) + (natOfDigits fp : ℚ) / (10 : ℚ) ^ fp.length
    let signed : ℚ → ℚ := fun q => if neg then -q else q
    match cs2 with
    | [] => some (signed mant)
    | 'e' :: rest => (applyExp mant rest).map signed
    | 'E' :: rest => (applyExp mant rest).map signed
    | _ => none

/-- Splits a character list on `-` separators (keeping empty groups),
modelling the grouping `strptime("%Y-%m-%d")` performs. -/
def splitOnDash : List Char → List (List Char)
  | [] => [[]]
  | c :: rest =>
      let r := splitOnDash rest
      if c = '-' then [] :: r
      else
        match r with
        | [] => [[c]]
        | g :: gs => (c :: g) :: gs

/-- Gregorian leap-year rule, as `datetime` applies it. -/
def isLeapYear (y : Nat) : Bool :=
  (y % 4 = 0 && y % 100 ≠ 0) || y % 400 = 0

/-- Number of days in month `m` of year `y`. -/
def daysInMonth (y m : Nat) : Nat :=
  if m = 2 then (if isLeapYear y then 29 else 28)
  else if m = 4 || m = 6 || m = 9 || m = 11 then 30
  else 31

/-- Models `datetime.datetime.strptime(s, "%Y-%m-%d")` succeeding: three
dash-separated digit groups.  CPython's `%Y` directive matches exactly
four digits (years below 1000 must be zero-padded), `%m` and `%d` match
one or two; the year must be 1-9999 (`datetime.MINYEAR`/`MAXYEAR`),
the month 1-12, the day within the month's real length. -/
def valid_date (s : String) : Bool :=
  match splitOnDash s.data with
  | [ys, ms, ds] =>
      ys.all Char.isDigit && ms.all Char.isDigit && ds.all Char.isDigit
      && decide (ys.length = 4)
      && decide (1 ≤ ms.length ∧ ms.length ≤ 2)
      && decide (1 ≤ ds.length ∧ ds.length ≤ 2)
      && (let y := natOfDigits ys
          let m := natOfDigits ms
          let d := natOfDigits ds
          decide (1 ≤ y ∧ y ≤ 9999 ∧ 1 ≤ m ∧ m ≤ 12 ∧
                  1 ≤ d ∧ d ≤ daysInMonth y m))
  | _ => false

/-- The electricity tier `mapping` dict (source line 83). -/
def elec_mapping (choice : String) : Option ℚ :=
  if choice = "1" then some 10.0
  else if choice = "2" then some 25.0
  else if choice = "3" then some 40.0
  else none

/-- The date step of `add_entry` (source lines 58-64): a blank (stripped)
input defaults to `today`, then the chosen string must be a valid
`YYYY-MM-DD` date; `none` models the abort. -/
def date_step (dateRaw today : String) : Option String :=
  let date := if py_strip dateRaw = "" then today else py_strip dateRaw
  if valid_date date then some date else none

/-- The console inputs one `add_entry` run consumes, plus `today`
(the value of `datetime.date.today().isoformat()` during the run). -/
structure AddInputs where
  today : String
  dateRaw : String
  carRaw : String
  transitRaw : String
  elecRaw : String
  dietRaw : String

/-- What one `add_entry` run did: which validation aborted it, or the
entry it appended. -/
inductive AddResult
  | badDate
  | badCar
  | badTransit
  | badElec
  | badDiet
  | added (e : Entry)
deriving DecidableEq

/-- The user-facing message each abort path prints (source lines 63, 69,
75, 85, 95); `none` for the success result. -/
def errorMessage : AddResult → Option String
  | .badDate => some "Oops, wrong date format. Try YYYY-MM-DD."
  | .badCar => some "That doesn’t look like a number."
  | .badTransit => some "That doesn’t look like a number."
  | .badElec => some "Invalid choice."
  | .badDiet => some "Invalid choice."
  | .added _ => none

/-- `add_entry` (source lines 56-111): sequential validated steps, each
failure returning immediately with the file state untouched; on success
the entry (with its snapshotted emissions) is appended to the loaded
list and the whole list is saved. -/
def add_entry (inp : AddInputs) (fs : FileState) : FileState × AddResult :=
  match date_step inp.dateRaw inp.today with
  | none => (fs, .badDate)
  | some date =>
    match py_float (py_strip inp.carRaw) with
    | none => (fs, .badCar)
    | some car_miles =>
      match py_float (py_strip inp.transitRaw) with
      | none => (fs, .badTransit)
      | some transit_miles =>
        match elec_mapping (py_strip inp.elecRaw) with
        | none => (fs, .badElec)
        | some elec_kwh =>
          let diet := py_strip inp.dietRaw
          if (DIET_CO2 diet).isNone then (fs, .badDiet)
          else
            match calc_emissions car_miles transit_miles elec_kwh diet with
            | none => (fs, .badDiet)
            | some em =>
                let entry : Entry :=
                  { date := date, car_miles := car_miles,
                    transit_miles := transit_miles, elec_kwh := elec_kwh,
                    diet := diet, emissions := em }
                let data := (load_data fs).1
                (save_data (data ++ [entry]), .added entry)

/-- Whether some validation step of `add_entry` fails on these inputs. -/
def validation_fails (inp : AddInputs) : Bool :=
  (date_step inp.dateRaw inp.today).isNone
  || (py_float (py_strip inp.carRaw)).isNone
  || (py_float (py_strip inp.transitRaw)).isNone
  || (elec_mapping (py_strip inp.elecRaw)).isNone
  || (DIET_CO2 (py_strip inp.dietRaw)).isNone

/-- What `show_report` printed, reduced to the data it prints: the
no-entries message, an uncaught `KeyError` (a stored diet code missing
from `DIET_CO2`), or the entry count, grand total and average of the
closing summary line (source line 133). -/
inductive ReportResult
  | noData
  | keyError
  | report (count : Nat) (grandTotal : ℚ) (avg : ℚ)
deriving DecidableEq

/-- The accumulation loop of `show_report` (source lines 121-130):
`grand_total` accumulated over the entries in stored order; `none`
models the `KeyError` from `DIET_CO2[e["diet"]]` on line 123. -/
def reportLoop : List Entry → ℚ → Option ℚ
  | [], acc => some acc
  | e :: rest, acc =>
      match DIET_CO2 e.diet with
      | none => none
      | some _ => reportLoop rest (acc + e.emissions.total)

/-- `show_report` over the loaded entry list (source lines 113-133). -/
def show_report (data : List Entry) : ReportResult :=
  if data.isEmpty then .noData
  else
    match reportLoop data 0 with
    | none => .keyError
    | some grand_total =>
        .report data.length grand_total (grand_total / (data.length : ℚ))

/-- The sum of the stored per-entry emission totals. -/
def sum_totals (data : List Entry) : ℚ :=
  (data.map (fun e => e.emissions.total)).sum

/-- Tip strings (source lines 144, 146, 148, 150, 153). -/
def tip_carpool : String := "Try carpooling or grouping errands together."

/-- The swap-to-transit tip string. -/
def tip_transit : String := "Could you swap a drive for the bus or train?"

/-- The reduce-appliance-use tip string. -/
def tip_elec : String := "Turn off unused lights/appliances."

/-- The try-meatless-meal tip string. -/
def tip_meatless : String := "Maybe try a meatless meal now and then."

/-- The fixed encouragement printed when no rule fires. -/
def tip_encouragement : String := "Nice work! Keep up the eco-friendly habits."

/-- The no-data message of `give_tips` (source line 138). -/
def noDataTipsMsg : String := "No data to give tips on — add an entry first!"

/-- The `tips` list `give_tips` builds for the last entry (source lines
142-153): four sequential appends, then the encouragement if empty. -/
def tipsFor (e : Entry) : List String :=
  let tips : List String := []
  let tips := if e.car_miles > 20 then tips ++ [tip_carpool] else tips
  let tips := if e.transit_miles < 5 then tips ++ [tip_transit] else tips
  let tips := if e.elec_kwh > 30 then tips ++ [tip_elec] else tips
  let tips := if e.diet = "1" then tips ++ [tip_meatless] else tips
  if tips.isEmpty then [tip_encouragement] else tips

/-- `give_tips` over the loaded entry list (source lines 135-158): the
advisory strings it prints, computed from `data[-1]` only. -/
def give_tips (data : List Entry) : List String :=
  match data.getLast? with
  | none => [noDataTipsMsg]
  | some e => tipsFor e

/-- The Tip Engine rules as the spec states them: the rules that fire,
in the fixed order carpool, swap-to-transit, reduce-appliance-use,
try-meatless-meal; a single encouragement when none fires. -/
def specTips (e : Entry) : List String :=
  let fired :=
    (if e.car_miles > 20 then [tip_carpool] else [])
    ++ (if e.transit_miles < 5 then [tip_transit] else [])
    ++ (if e.elec_kwh > 30 then [tip_elec] else [])
    ++ (if e.diet = "1" then [tip_meatless] else [])
  if fired = [] then [tip_encouragement] else fired

/-- `show_report` as a state transformer: it only calls `load_data`
(source line 114), never `save_data`, so the file state passes through. -/
def show_report_op (fs : FileState) : FileState × ReportResult :=
  (fs, show_report (load_data fs).1)

/-- `give_tips` as a state transformer: it only calls `load_data`
(source line 136), never `save_data`, so the file state passes through. -/
def give_tips_op (fs : FileState) : FileState × List String :=
  (fs, give_tips (load_data fs).1)

/-- Concrete input script for the elec-tier-4 rejection example: every
step before the electricity tier is valid. -/
def c2Inputs : AddInputs :=
  { today := "2025-01-15", dateRaw := "", carRaw := "10",
    transitRaw := "2", elecRaw := "4", dietRaw := "1" }

/-- Concrete last entry of the all-four-tips example. -/
def c4Entry : Entry :=
  { date := "2025-01-15", car_miles := 25, transit_miles := 1,
    elec_kwh := 40, diet := "1",
    emissions := { car := 10.275, transit := 0.089, elec := 16.8,
                   diet := 5.0, total := 32.164 } }

/-- First entry of the report example, with stored total 30.0 kg. -/
def c5Entry1 : Entry :=
  { date := "d1", car_miles := 0, transit_miles := 0, elec_kwh := 0,
    diet := "1",
    emissions := { car := 0, transit := 0, elec := 0, diet := 0,
                   total := 30 } }

/-- Second entry of the report example, with stored total 10.0 kg. -/
def c5Entry2 : Entry :=
  { date := "d2", car_miles := 0, transit_miles := 0, elec_kwh := 0,
    diet := "2",
    emissions := { car := 0, transit := 0, elec := 0, diet := 0,
                   total := 10 } }

/-! Helper lemmas. -/

/-- The sequential tip-list construction of the source equals the
spec-ordered concatenation of the rules that fire. -/
theorem tipsFor_eq_specTips (e : Entry) : tipsFor e = specTips e := by
  unfold tipsFor specTips
  by_cases h1 : e.car_miles > 20 <;> by_cases h2 : e.transit_miles < 5 <;>
    by_cases h3 : e.elec_kwh > 30 <;> by_cases h4 : e.diet = "1" <;>
      simp [h1, h2, h3, h4]

/-- The report loop accumulates the sum of the stored per-entry totals
when every stored diet code is recognized. -/
theorem reportLoop_eq_sum (data : List Entry)
    (h : ∀ e ∈ data, (DIET_CO2 e.diet).isSome = true) :
    ∀ acc : ℚ, reportLoop data acc = some (acc + sum_totals data) := by
  induction data with
  | nil => intro acc; simp [reportLoop, sum_totals]
  | cons e rest ih =>
    intro acc
    have he : (DIET_CO2 e.diet).isSome = true := h e (by simp)
    rcases hdi : DIET_CO2 e.diet with _ | p
    · rw [hdi] at he; simp at he
    · unfold reportLoop
      rw [hdi, ih (fun x hx => h x (by simp [hx]))]
      simp only [sum_totals, List.map_cons, List.sum_cons, Option.some.injEq]
      ring

/-! The claims. -/

/-- C1: for every entry with a recognized diet code in 1/2/3 and numeric
inputs, `calc_emissions` returns car = car_miles × 0.411,
transit = transit_miles × 0.089, elec = elec_kwh × 0.42, diet the fixed
constant of the chosen category (5.0 / 3.5 / 2.5), and
total = car + transit + elec + diet. -/
theorem calc_emissions_components (cm tm ek : ℚ) (d : String)
    (h : d = "1" ∨ d = "2" ∨ d = "3") :
    calc_emissions cm tm ek d =
      some { car := cm * 0.411, transit := tm * 0.089, elec := ek * 0.42,
             diet := (if d = "1" then (5.0 : ℚ)
                      else if d = "2" then 3.5 else 2.5),
             total := cm * 0.411 + tm * 0.089 + ek * 0.42 +
               (if d = "1" then (5.0 : ℚ)
                else if d = "2" then 3.5 else 2.5) } := by
  rcases h with rfl | rfl | rfl <;> rfl

/-- C1 witness: the breakdown at car_miles = 10, transit_miles = 2,
elec_kwh = 25, diet code 1. -/
theorem calc_emissions_components_witness :
    ("1" = "1" ∨ "1" = "2" ∨ "1" = "3") ∧
    calc_emissions 10 2 25 "1" =
      some { car := (10 : ℚ) * 0.411, transit := (2 : ℚ) * 0.089,
             elec := (25 : ℚ) * 0.42,
             diet := (if "1" = "1" then (5.0 : ℚ)
                      else if "1" = "2" then 3.5 else 2.5),
             total := (10 : ℚ) * 0.411 + 2 * 0.089 + 25 * 0.42 +
               (if "1" = "1" then (5.0 : ℚ)
                else if "1" = "2" then 3.5 else 2.5) } :=
  ⟨Or.inl rfl, calc_emissions_components 10 2 25 "1" (Or.inl rfl)⟩

/-- C2: whenever any validation step of the add-entry flow fails (bad
date, non-numeric car or transit miles, electricity tier or diet code
outside 1/2/3), `add_entry` leaves the file state unchanged and its
result carries a user-facing error message. -/
theorem add_entry_validation_aborts (inp : AddInputs) (fs : FileState)
    (h : validation_fails inp = true) :
    (add_entry inp fs).1 = fs ∧
      (errorMessage (add_entry inp fs).2).isSome = true := by
  unfold validation_fails at h
  unfold add_entry
  rcases hd : date_step inp.dateRaw inp.today with _ | date
  · simp [hd, errorMessage]
  · rcases hc : py_float (py_strip inp.carRaw) with _ | cm
    · simp [hd, hc, errorMessage]
    · rcases ht : py_float (py_strip inp.transitRaw) with _ | tm
      · simp [hd, hc, ht, errorMessage]
      · rcases he : elec_mapping (py_strip inp.elecRaw) with _ | ek
        · simp [hd, hc, ht, he, errorMessage]
        · rw [hd, hc, ht, he] at h
          simp only [Option.isNone_some, Bool.false_or] at h
          simp [hd, hc, ht, he, h, errorMessage]

/-- C2 witness: electricity tier input 4 (with every earlier step valid)
is rejected and storage is not modified. -/
theorem add_entry_validation_aborts_witness :
    validation_fails c2Inputs = true ∧
      (add_entry c2Inputs .missing).1 = .missing ∧
      (errorMessage (add_entry c2Inputs .missing).2).isSome = true :=
  ⟨by decide,
   (add_entry_validation_aborts c2Inputs .missing (by decide)).1,
   (add_entry_validation_aborts c2Inputs .missing (by decide)).2⟩

/-- C3: saving an entry sequence and loading it back (successful save,
file untouched in between) yields the same sequence, in content and
order, with no notice printed. -/
theorem save_load_round_trip (entries : List Entry) :
    load_data (save_data entries) = (entries, []) := rfl

/-- C4: for a stored sequence whose last entry is `e`, `give_tips` emits
exactly the advisory strings of the rules that fire, in the fixed order
carpool, swap-to-transit, reduce-appliance-use, try-meatless-meal,
examining only the last entry, and a single fixed encouragement string
when no rule fires. -/
theorem give_tips_last_entry (data : List Entry) (e : Entry)
    (h : data.getLast? = some e) : give_tips data = specTips e := by
  unfold give_tips
  rw [h]
  exact tipsFor_eq_specTips e

/-- C4 witness: a last entry with car_miles = 25, transit_miles = 1,
elec_kwh = 40, diet code 1 fires all four tips in the fixed order. -/
theorem give_tips_last_entry_witness :
    [c4Entry].getLast? = some c4Entry ∧
    give_tips [c4Entry]
      = [tip_carpool, tip_transit, tip_elec, tip_meatless] :=
  ⟨rfl,
   (give_tips_last_entry [c4Entry] c4Entry rfl).trans
     (by norm_num [specTips, c4Entry]; simp)⟩

/-- C5: for every non-empty stored sequence whose diet codes are all
recognized, the report's closing line carries the entry count, a grand
total equal to the sum of the stored per-entry totals, and an average
equal to the grand total divided by the count. -/
theorem show_report_summary (data : List Entry) (h1 : data ≠ [])
    (h2 : ∀ e ∈ data, (DIET_CO2 e.diet).isSome = true) :
    show_report data =
      .report data.length (sum_totals data)
        (sum_totals data / (data.length : ℚ)) := by
  have hne : data.isEmpty = false := by
    cases data with
    | nil => exact absurd rfl h1
    | cons a l => rfl
  unfold show_report
  rw [hne, reportLoop_eq_sum data h2 0, zero_add]
  simp

/-- C5 witness: a store of two entries with stored totals 30.0 kg and
10.0 kg reports count 2, grand total 40.0, average 20.0. -/
theorem show_report_summary_witness :
    ([c5Entry1, c5Entry2] ≠ ([] : List Entry)) ∧
    show_report [c5Entry1, c5Entry2] = .report 2 40 20 :=
  ⟨by decide,
   (show_report_summary [c5Entry1, c5Entry2] (by decide) (by decide)).trans
     (by norm_num [sum_totals, c5Entry1, c5Entry2])⟩

/-- C6: the worked example — car_miles = 10, transit_miles = 2,
electricity tier 2 (25 kWh), diet code 1 (Omnivore) — yields
car = 4.11, transit = 0.178, elec = 10.5, diet = 5.0, total = 19.788. -/
theorem calc_emissions_example :
    elec_mapping "2" = some 25 ∧
    calc_emissions 10 2 25 "1" =
      some { car := 4.11, transit := 0.178, elec := 10.5, diet := 5.0,
             total := 19.788 } := by
  constructor
  · have hne : ¬("2" : String) = "1" := by decide
    norm_num [elec_mapping, hne]
  · norm_num [calc_emissions, DIET_CO2, CAR_CO2_PER_MILE,
      TRANSIT_CO2_PER_MILE, ELEC_CO2_PER_KWH]

/-- C7: `load_data` is total (never raises): a missing file yields the
empty sequence with no notice, an unparsable file yields the empty
sequence with the non-fatal notice, and a parseable file yields exactly
the stored sequence. -/
theorem load_data_total :
    load_data .missing = ([], []) ∧
    load_data .corrupt = ([], [loadNotice]) ∧
    ∀ entries : List Entry, load_data (.stored entries) = (entries, []) :=
  ⟨rfl, rfl, fun _ => rfl⟩

/-- C8: when the loaded entry sequence is empty, the report emits its
no-data result (carrying no count, total or average, so the mean is
never computed) and the tips operation emits only its no-data message. -/
theorem empty_store_no_division (fs : FileState)
    (h : (load_data fs).1 = []) :
    show_report (load_data fs).1 = .noData ∧
      give_tips (load_data fs).1 = [noDataTipsMsg] := by
  rw [h]
  exact ⟨rfl, rfl⟩

/-- C8 witness: the missing-file state loads as empty and both
operations answer with their no-data result. -/
theorem empty_store_no_division_witness :
    (load_data .missing).1 = [] ∧
      show_report (load_data .missing).1 = .noData ∧
      give_tips (load_data .missing).1 = [noDataTipsMsg] :=
  ⟨rfl, empty_store_no_division .missing rfl⟩

/-- C10: the report and tips operations never modify the stored entry
sequence: both pass the file state through unchanged (they call only
`load_data`, never `save_data`). -/
theorem report_and_tips_preserve_storage :
    ∀ fs : FileState,
      (show_report_op fs).1 = fs ∧ (give_tips_op fs).1 = fs :=
  fun _ => ⟨rfl, rfl⟩

/-- C9: in the date step, a blank (stripped) input defaults to the
current date and is accepted (today's ISO date is always valid), and a
non-blank input is accepted — with its stripped value — exactly when it
is a valid `YYYY-MM-DD` calendar date. -/
theorem date_step_spec (dateRaw today : String)
    (h : valid_date today = true) :
    (py_strip dateRaw = "" → date_step dateRaw today = some today) ∧
    (py_strip dateRaw ≠ "" →
      (date_step dateRaw today = some (py_strip dateRaw) ↔
        valid_date (py_strip dateRaw) = true)) := by
  constructor
  · intro hb
    unfold date_step
    rw [if_pos hb, if_pos h]
  · intro hb
    unfold date_step
    rw [if_neg hb]
    by_cases hv : valid_date (py_strip dateRaw) = true
    · rw [if_pos hv]; simp [hv]
    · rw [if_neg hv]; simp [hv]

/-- C9 witness: with today = 2025-01-15, a blank date input is accepted
as today's date. -/
theorem date_step_spec_witness :
    valid_date "2025-01-15" = true ∧
      date_step "" "2025-01-15" = some "2025-01-15" :=
  ⟨by decide, (date_step_spec "" "2025-01-15" (by decide)).1 (by decide)⟩

end EcoTracker
